import Mathlib

/-!
Shallow embedding of the attendance server
(`src/supabase/functions/server/index.tsx`) over its key-value store.

Modelling conventions:
* A stored JSON value may be partially written, so every field is an
  `Option`; a JS-falsy field value (absent, `null`, or the empty string)
  is modelled as `none`, and the code's truthiness tests (`student.id`,
  `record.timestamp`, ...) become `Option.isSome`.
* Timestamps are modelled as natural numbers (milliseconds since epoch);
  `Date.toDateString` equality — calendar-day comparison in the fixed
  reference time zone — becomes equality of `dayOf` (division by the
  number of milliseconds in a day).
* The key-value store is a list of `(key, value)` pairs per record kind
  (`getByPrefix "student:"` / `getByPrefix "attendance:"` each return one
  of the two lists); `kv.set` upserts by key, `kv.del` removes a key.
* JS `sort` with a numeric comparator is stable (ES2019), so the
  timestamp-descending sort is modelled by `List.insertionSort`, which is
  stable.
-/

/-- Stored shape of a student document (all fields optional: entries can be
partially written; `none` models a JS-falsy field). -/
structure StudentV where
  id : Option String
  name : Option String
  email : Option String
  studentNumber : Option String
  country : Option String
  qrCode : Option String
  createdAt : Option Nat
deriving DecidableEq

/-- Stored shape of an attendance document. -/
structure AttV where
  id : Option String
  studentId : Option String
  timestamp : Option Nat
  status : Option String
  notes : Option String
deriving DecidableEq

/-- The key-value store, split by key kind: `getByPrefix "student:"`
returns `students`, `getByPrefix "attendance:"` returns `attendance`.
Each entry is a `(key, value)` pair; the value may be null (`none`). -/
structure Store where
  students : List (String × Option StudentV)
  attendance : List (String × Option AttV)
deriving DecidableEq

/-- `kv.get`: value at a key, `none` when absent or null. -/
def kvGet (l : List (String × Option α)) (k : String) : Option α :=
  match l.find? (fun e => decide (e.1 = k)) with
  | some e => e.2
  | none => none

/-- `kv.set`: upsert by key (replace when the key exists, append otherwise). -/
def kvSet (l : List (String × Option α)) (k : String) (v : α) :
    List (String × Option α) :=
  if l.any (fun e => decide (e.1 = k)) then
    l.map (fun e => if e.1 = k then (k, some v) else e)
  else l ++ [(k, some v)]

/-- `kv.del`: remove every entry at a key. -/
def kvDel (l : List (String × Option α)) (k : String) :
    List (String × Option α) :=
  l.filter (fun e => decide (e.1 ≠ k))

/-- Calendar day of a timestamp (`Date.toDateString` in the fixed
reference time zone): milliseconds since epoch divided by one day. -/
def dayOf (t : Nat) : Nat := t / 86400000

/-- Timestamp used by the sort comparator (`new Date(x.timestamp).getTime()`);
only ever applied after a `timestamp.isSome` filter, so the default is inert. -/
def tsKey (r : AttV) : Nat := r.timestamp.getD 0

/-- `a` sorts no later than `b` under the comparator
`(a, b) => getTime(b) - getTime(a)` (timestamp descending). -/
def attLe (a b : AttV) : Prop := tsKey b ≤ tsKey a

instance : DecidableRel attLe := fun a b => Nat.decLe (tsKey b) (tsKey a)

instance : IsTotal AttV attLe := ⟨fun a b => Nat.le_total (tsKey b) (tsKey a)⟩

instance : IsTrans AttV attLe := ⟨fun _ _ _ h1 h2 => Nat.le_trans h2 h1⟩

/-- Stable timestamp-descending sort (`validRecords.sort((a, b) => ...)`). -/
def sortByTimestampDesc (l : List AttV) : List AttV := l.insertionSort attLe

/-- GET /students: map entries to their values, drop null entries and
entries missing `id` or `name`. -/
def listStudents (st : Store) : List StudentV :=
  (st.students.filterMap (fun e => e.2)).filter
    (fun v => v.id.isSome && v.name.isSome)

/-- The student record built by POST /students. -/
def newStudent (name email studentNumber country : Option String)
    (now : Nat) : StudentV :=
  { id := some ("STU" ++ toString now)
    name := name
    email := email
    studentNumber := studentNumber
    country := some (country.getD "")
    qrCode := some ("STU" ++ toString now)
    createdAt := some now }

inductive CreateResult where
  | validationError
  | created (student : StudentV)
deriving DecidableEq

/-- POST /students: 400 when `name`, `email` or `studentNumber` is falsy;
otherwise build the record with id `STU<now>`, `qrCode = id`,
`createdAt = now`, and persist it. -/
def createStudent (st : Store) (name email studentNumber country : Option String)
    (now : Nat) : CreateResult × Store :=
  if name.isSome && email.isSome && studentNumber.isSome then
    (.created (newStudent name email studentNumber country now),
     { st with students :=
         (kvSet st.students ("student:" ++ ("STU" ++ toString now))
           (newStudent name email studentNumber country now)) })
  else (.validationError, st)

/-- JS object spread `{...existing, ...body}`: each field of `body` that is
present overrides the stored field. -/
def mergeStudent (existing body : StudentV) : StudentV :=
  { id := body.id.orElse (fun _ => existing.id)
    name := body.name.orElse (fun _ => existing.name)
    email := body.email.orElse (fun _ => existing.email)
    studentNumber := body.studentNumber.orElse (fun _ => existing.studentNumber)
    country := body.country.orElse (fun _ => existing.country)
    qrCode := body.qrCode.orElse (fun _ => existing.qrCode)
    createdAt := body.createdAt.orElse (fun _ => existing.createdAt) }

inductive UpdateResult where
  | notFound
  | updated (student : StudentV)
deriving DecidableEq

/-- PUT /students/:id: 404 when no record at the key; otherwise shallow-merge
the body over the stored record and persist at the same key. -/
def updateStudent (st : Store) (sid : String) (body : StudentV) :
    UpdateResult × Store :=
  match kvGet st.students ("student:" ++ sid) with
  | none => (.notFound, st)
  | some existing =>
    (.updated (mergeStudent existing body),
     { st with students :=
         (kvSet st.students ("student:" ++ sid) (mergeStudent existing body)) })

/-- Key used by the cascade delete: `kv.del('attendance:' + record.value.id)`;
a missing id stringifies to `"undefined"` in the template literal. -/
def attKey (e : String × Option AttV) : String :=
  "attendance:" ++ (match e.2 with
    | some v => v.id.getD "undefined"
    | none => "undefined")

inductive DeleteResult where
  | notFound
  | deleted
deriving DecidableEq

/-- DELETE /students/:id: 404 when absent; otherwise delete the student key,
then for every attendance entry whose value's `studentId` equals the id,
delete the key `attendance:<value.id>`. -/
def deleteStudent (st : Store) (sid : String) : DeleteResult × Store :=
  match kvGet st.students ("student:" ++ sid) with
  | none => (.notFound, st)
  | some _ =>
    { fst := .deleted
      snd :=
        { students := kvDel st.students ("student:" ++ sid)
          attendance :=
            (st.attendance.filter (fun e =>
              match e.2 with
              | some v => decide (v.studentId = some sid)
              | none => false)).foldl
              (fun acc e => kvDel acc (attKey e)) st.attendance } }

/-- GET /attendance: values of `attendance:` entries, dropping null entries
and entries missing `id`, `studentId` or `timestamp`. -/
def validAttendanceList (st : Store) : List AttV :=
  (st.attendance.filterMap (fun e => e.2)).filter
    (fun r => r.id.isSome && r.studentId.isSome && r.timestamp.isSome)

/-- GET /attendance: valid records sorted timestamp-descending. -/
def listAttendance (st : Store) : List AttV :=
  sortByTimestampDesc (validAttendanceList st)

/-- GET /attendance/today: the same validity filter plus the same-calendar-day
test against `now`, sorted timestamp-descending. -/
def listAttendanceToday (st : Store) (now : Nat) : List AttV :=
  sortByTimestampDesc
    ((st.attendance.filterMap (fun e => e.2)).filter
      (fun r => r.id.isSome && r.studentId.isSome && r.timestamp.isSome &&
        decide (dayOf (tsKey r) = dayOf now)))

/-- Check-in, step 1 filter: entries that are non-null with truthy `qrCode`,
`id` and `name` (the keys of the entries are never used afterwards, so the
filtered list is taken over values). -/
def wellFormedStudents (st : Store) : List StudentV :=
  (st.students.filterMap (fun e => e.2)).filter
    (fun v => v.qrCode.isSome && v.id.isSome && v.name.isSome)

/-- Check-in, step 1 find: first well-formed student whose `qrCode` equals
the scanned code. -/
def resolveStudent (st : Store) (code : String) : Option StudentV :=
  (wellFormedStudents st).find? (fun v => decide (v.qrCode = some code))

/-- Check-in, step 2 filter: attendance values with truthy `studentId` and
`timestamp` (note: `id` is not required here). -/
def validAttValues (st : Store) : List AttV :=
  (st.attendance.filterMap (fun e => e.2)).filter
    (fun r => r.studentId.isSome && r.timestamp.isSome)

/-- Check-in, step 2 find: a record of the resolved student dated today. -/
def dupFind (st : Store) (sid : Option String) (now : Nat) : Option AttV :=
  (validAttValues st).find?
    (fun r => decide (r.studentId = sid) && decide (dayOf (tsKey r) = dayOf now))

/-- The attendance record created by a successful check-in. -/
def newAttRecord (s : StudentV) (now : Nat) : AttV :=
  { id := some ("ATT" ++ toString now)
    studentId := s.id
    timestamp := some now
    status := some "present"
    notes := none }

inductive CheckInResult where
  | badRequest
  | studentNotFound
  | alreadyCheckedIn (student : StudentV)
  | success (student : StudentV) (record : AttV)
deriving DecidableEq

/-- POST /attendance/checkin: 400 when the body's `qrCode` is falsy; 404 when
no well-formed student matches; 409 when the student already has a record
today; otherwise create and persist a `present` record stamped `now`. -/
def checkIn (st : Store) (qrCode : Option String) (now : Nat) :
    CheckInResult × Store :=
  match qrCode with
  | none => (.badRequest, st)
  | some code =>
    match resolveStudent st code with
    | none => (.studentNotFound, st)
    | some s =>
      match dupFind st s.id now with
      | some _ => (.alreadyCheckedIn s, st)
      | none =>
        (.success s (newAttRecord s now),
         { st with attendance :=
             (kvSet st.attendance ("attendance:" ++ ("ATT" ++ toString now))
               (newAttRecord s now)) })

/-! ### Concrete fixtures used by witnesses and counterexamples -/

/-- A well-formed stored student (shape of the sample data). -/
def sW : StudentV :=
  { id := some "STU1", name := some "Alice", email := some "a@b.c"
    studentNumber := some "1", country := some "", qrCode := some "STU1"
    createdAt := some 0 }

/-- One well-formed student, empty attendance. -/
def stW : Store :=
  { students := [("student:STU1", some sW)], attendance := [] }

/-- A stored student whose `email` was never written. -/
def sNoEmail : StudentV :=
  { id := some "STU9", name := some "NoMail", email := none
    studentNumber := some "9", country := none, qrCode := some "STU9"
    createdAt := some 0 }

/-- Store holding only the email-less student. -/
def stC3 : Store :=
  { students := [("student:STU9", some sNoEmail)], attendance := [] }

/-- An update body whose only present field is a different `id`. -/
def idBody : StudentV :=
  { id := some "STU2", name := none, email := none, studentNumber := none
    country := none, qrCode := none, createdAt := none }

/-- An update body with no field present. -/
def emptyBody : StudentV :=
  { id := none, name := none, email := none, studentNumber := none
    country := none, qrCode := none, createdAt := none }

/-- Same-day attendance record for `sW` that lacks an `id`. -/
def recNoId : AttV :=
  { id := none, studentId := some "STU1", timestamp := some 3
    status := some "present", notes := none }

/-- Store where `sW` has a same-day record without an `id`. -/
def stC9 : Store :=
  { students := [("student:STU1", some sW)]
    attendance := [("attendance:K", some recNoId)] }

/-- Same-day attendance record for `sW` with status `absent`. -/
def recAbsent : AttV :=
  { id := some "ATT3", studentId := some "STU1", timestamp := some 3
    status := some "absent", notes := none }

/-- Store where `sW` has a same-day record with status `absent`. -/
def stC10 : Store :=
  { students := [("student:STU1", some sW)]
    attendance := [("attendance:ATT3", some recAbsent)] }

/-- An attendance entry stored at key `attendance:<id>` for its own record
id with the value and id present — the persisted layout of every record
written by check-in. -/
def entryKeyOk (e : String × Option AttV) : Bool :=
  match e.2 with
  | some v =>
    match v.id with
    | some i => decide (e.1 = "attendance:" ++ i)
    | none => false
  | none => false

/-- Every attendance entry of the store follows the `attendance:<id>`
key layout. -/
def keyConsistent (st : Store) : Prop :=
  ∀ e ∈ st.attendance, entryKeyOk e = true

instance (st : Store) : Decidable (keyConsistent st) :=
  inferInstanceAs (Decidable (∀ e ∈ st.attendance, entryKeyOk e = true))

/-- Same-day attendance record for `sW` stored under a key that does not
match its own `id`. -/
def recMiskeyed : AttV :=
  { id := some "ATTL", studentId := some "STU1", timestamp := some 3
    status := some "present", notes := none }

/-- Store where the only attendance entry for `sW` violates the
`attendance:<id>` key layout. -/
def stC6 : Store :=
  { students := [("student:STU1", some sW)]
    attendance := [("attendance:K", some recMiskeyed)] }

/-! ### Key-value store lemmas -/

theorem find?_map_upsert (k : String) (v : α) :
    ∀ l : List (String × Option α), l.any (fun e => decide (e.1 = k)) = true →
      (l.map (fun e => if e.1 = k then (k, some v) else e)).find?
          (fun e => decide (e.1 = k)) = some (k, some v)
  | [], h => by simp at h
  | e :: rest, h => by
    by_cases he : e.1 = k
    · simp [he]
    · have hrest : rest.any (fun e => decide (e.1 = k)) = true := by
        simpa [he] using h
      simpa [he] using find?_map_upsert k v rest hrest

theorem kvGet_kvSet_self (l : List (String × Option α)) (k : String) (v : α) :
    kvGet (kvSet l k v) k = some v := by
  unfold kvGet kvSet
  by_cases h : l.any (fun e => decide (e.1 = k))
  · rw [if_pos h, find?_map_upsert k v l h]
  · rw [if_neg h, List.find?_append]
    have hnone : l.find? (fun e => decide (e.1 = k)) = none := by
      rw [List.find?_eq_none]
      intro x hx
      simp only [decide_eq_true_eq]
      intro hk
      exact h (List.any_eq_true.mpr ⟨x, hx, by simp [hk]⟩)
    simp [hnone]

theorem kvGet_kvDel_self (l : List (String × Option α)) (k : String) :
    kvGet (kvDel l k) k = none := by
  unfold kvGet kvDel
  have : (l.filter (fun e => decide (e.1 ≠ k))).find?
      (fun e => decide (e.1 = k)) = none := by
    rw [List.find?_eq_none]
    intro x hx
    have := (List.mem_filter.mp hx).2
    simp at this ⊢
    exact this
  rw [this]

theorem kvSet_fresh (l : List (String × Option α)) (k : String) (v : α)
    (h : ∀ e ∈ l, e.1 ≠ k) : kvSet l k v = l ++ [(k, some v)] := by
  have hany : l.any (fun e => decide (e.1 = k)) = false := by
    rw [List.any_eq_false]
    intro x hx
    simpa using h x hx
  simp [kvSet, hany]

/-! ### Check-in lemmas -/

theorem resolveStudent_wf {st : Store} {code : String} {s : StudentV}
    (h : resolveStudent st code = some s) :
    s.qrCode = some code ∧ s.id.isSome ∧ s.name.isSome := by
  have hmem := List.mem_of_find?_eq_some h
  have hpred := List.find?_some h
  have hwf := (List.mem_filter.mp hmem).2
  simp at hwf hpred
  exact ⟨hpred, hwf.1.2, hwf.2⟩

theorem dupFind_isSome_of_mem {st : Store} {sid : Option String} {now : Nat}
    {r : AttV} {e : String × Option AttV} {t : Nat}
    (he : e ∈ st.attendance) (hv : e.2 = some r)
    (hsid : r.studentId = sid) (hss : sid.isSome)
    (hts : r.timestamp = some t) (hday : dayOf t = dayOf now) :
    (dupFind st sid now).isSome := by
  rw [dupFind, List.find?_isSome]
  refine ⟨r, ?_, ?_⟩
  · rw [validAttValues, List.mem_filter]
    refine ⟨List.mem_filterMap.mpr ⟨e, he, hv⟩, ?_⟩
    simp [hsid, hss, hts]
  · have : tsKey r = t := by simp [tsKey, hts]
    simp [hsid, this, hday]

theorem checkIn_conflict {st : Store} {code : String} {s : StudentV} {now : Nat}
    (hres : resolveStudent st code = some s)
    (hdup : (dupFind st s.id now).isSome) :
    checkIn st (some code) now = (.alreadyCheckedIn s, st) := by
  obtain ⟨r, hr⟩ := Option.isSome_iff_exists.mp hdup
  simp [checkIn, hres, hr]

/-! ### Claim theorems -/

/-- Claim C2: a code matching no well-formed stored student makes check-in
fail with StudentNotFound and leaves the whole store (attendance included)
exactly as it was. -/
theorem checkIn_unknown_code (st : Store) (code : String) (now : Nat)
    (h : ∀ v ∈ wellFormedStudents st, v.qrCode ≠ some code) :
    checkIn st (some code) now = (.studentNotFound, st) := by
  have hres : resolveStudent st code = none := by
    rw [resolveStudent, List.find?_eq_none]
    intro v hv
    simpa using h v hv
  simp [checkIn, hres]

/-- Witness for C2 at a concrete store and unknown code. -/
theorem checkIn_unknown_code_witness :
    checkIn stW (some "NOPE") 0 = (.studentNotFound, stW) :=
  checkIn_unknown_code stW "NOPE" 0 (by decide)

/-- Claim C3, counterexample: the GET /students filter checks only `id` and
`name`, so a stored student with no `email` is returned, contradicting the
claim that entries lacking `email` are dropped. -/
theorem listStudents_missing_email_counterexample :
    listStudents stC3 = [sNoEmail] ∧ sNoEmail.email = none := by
  constructor
  · decide
  · rfl

/-- Claim C3 as amended: after any store state, every entry returned by
GET /students has `id` and `name` present (`email` is not checked). -/
theorem listStudents_id_name_present (st : Store) :
    ∀ v ∈ listStudents st, v.id.isSome ∧ v.name.isSome := by
  intro v hv
  unfold listStudents at hv
  have h2 := (List.mem_filter.mp hv).2
  simpa using h2

/-- Witness for the amended C3 at a concrete store and member. -/
theorem listStudents_id_name_present_witness :
    sNoEmail.id.isSome ∧ sNoEmail.name.isSome :=
  listStudents_id_name_present stC3 sNoEmail (by decide)

/-- Claim C4, counterexample: PUT /students/:id spreads the body over the
stored record, so a body containing an `id` field rewrites the stored
student's `id` (from "STU1" to "STU2" here): `id` is not immutable. -/
theorem updateStudent_id_overwritten_counterexample :
    kvGet (updateStudent stW "STU1" idBody).2.students ("student:" ++ "STU1") =
      some (mergeStudent sW idBody) ∧
    (mergeStudent sW idBody).id = some "STU2" ∧ sW.id = some "STU1" := by
  refine ⟨by decide, rfl, rfl⟩

/-- Claim C4 as amended: for every update body that does not contain an `id`
field, the stored student's `id` is unchanged by the update. -/
theorem updateStudent_id_immutable (st : Store) (sid : String) (body : StudentV)
    (v : StudentV) (hget : kvGet st.students ("student:" ++ sid) = some v)
    (hbody : body.id = none) :
    kvGet (updateStudent st sid body).2.students ("student:" ++ sid) =
      some (mergeStudent v body) ∧ (mergeStudent v body).id = v.id := by
  constructor
  · simp [updateStudent, hget, kvGet_kvSet_self]
  · simp [mergeStudent, hbody]

/-- Witness for the amended C4 at a concrete store and empty body. -/
theorem updateStudent_id_immutable_witness :
    kvGet (updateStudent stW "STU1" emptyBody).2.students ("student:" ++ "STU1") =
      some (mergeStudent sW emptyBody) ∧ (mergeStudent sW emptyBody).id = sW.id :=
  updateStudent_id_immutable stW "STU1" emptyBody sW (by decide) rfl

/-- Claim C5: every successful check-in returns the record with id
`ATT<now>`, `studentId` equal to the resolved student's id, `timestamp`
equal to `now`, and status `present` (never `absent` or `late`). -/
theorem checkIn_success_shape (st : Store) (code : String) (now : Nat)
    (s : StudentV) (rec : AttV) (st2 : Store)
    (h : checkIn st (some code) now = (.success s rec, st2)) :
    rec.id = some ("ATT" ++ toString now) ∧ rec.studentId = s.id ∧
      rec.timestamp = some now ∧ rec.status = some "present" := by
  cases hres : resolveStudent st code with
  | none => simp [checkIn, hres] at h
  | some s0 =>
    cases hdup : dupFind st s0.id now with
    | some r0 => simp [checkIn, hres, hdup] at h
    | none =>
      simp [checkIn, hres, hdup] at h
      obtain ⟨⟨h1, h2⟩, h3⟩ := h
      subst h1
      rw [← h2]
      simp [newAttRecord]

/-- Witness for C5 at a concrete successful check-in. -/
theorem checkIn_success_shape_witness :
    (newAttRecord sW 5).id = some ("ATT" ++ toString 5) ∧
      (newAttRecord sW 5).studentId = sW.id ∧
      (newAttRecord sW 5).timestamp = some 5 ∧
      (newAttRecord sW 5).status = some "present" :=
  checkIn_success_shape stW "STU1" 5 sW (newAttRecord sW 5)
    (checkIn stW (some "STU1") 5).2 (by decide)

/-- Claim C9: the duplicate check filters only on `studentId` and
`timestamp`, not `id`, so a same-day record lacking an `id` (which GET
/attendance would drop) still makes check-in fail with AlreadyCheckedIn. -/
theorem checkIn_conflict_missing_id (st : Store) (code : String) (s : StudentV)
    (now t : Nat) (r : AttV) (e : String × Option AttV)
    (hres : resolveStudent st code = some s)
    (he : e ∈ st.attendance) (hv : e.2 = some r)
    (hid : r.id = none)
    (hsid : r.studentId = s.id)
    (hts : r.timestamp = some t) (hday : dayOf t = dayOf now) :
    checkIn st (some code) now = (.alreadyCheckedIn s, st) :=
  checkIn_conflict hres
    (dupFind_isSome_of_mem he hv hsid (resolveStudent_wf hres).2.1 hts hday)

/-- Witness for C9: a same-day record without `id` triggers the 409. -/
theorem checkIn_conflict_missing_id_witness :
    checkIn stC9 (some "STU1") 5 = (.alreadyCheckedIn sW, stC9) :=
  checkIn_conflict_missing_id stC9 "STU1" sW 5 3 recNoId
    ("attendance:K", some recNoId) (by decide) (by decide) rfl rfl rfl rfl
    (by decide)

/-- Claim C10: the duplicate check ignores `status` entirely; any same-day
record of the resolved student, including one with status `absent` or
`late`, makes check-in fail with AlreadyCheckedIn and leaves the store
unchanged. -/
theorem checkIn_conflict_ignores_status (st : Store) (code : String)
    (s : StudentV) (now t : Nat) (r : AttV) (e : String × Option AttV)
    (hres : resolveStudent st code = some s)
    (he : e ∈ st.attendance) (hv : e.2 = some r)
    (hstatus : r.status = some "absent" ∨ r.status = some "late")
    (hsid : r.studentId = s.id)
    (hts : r.timestamp = some t) (hday : dayOf t = dayOf now) :
    checkIn st (some code) now = (.alreadyCheckedIn s, st) :=
  checkIn_conflict hres
    (dupFind_isSome_of_mem he hv hsid (resolveStudent_wf hres).2.1 hts hday)

/-- Witness for C10: a same-day record with status `absent` triggers the
409 instead of a new `present` record. -/
theorem checkIn_conflict_ignores_status_witness :
    checkIn stC10 (some "STU1") 5 = (.alreadyCheckedIn sW, stC10) :=
  checkIn_conflict_ignores_status stC10 "STU1" sW 5 3 recAbsent
    ("attendance:ATT3", some recAbsent) (by decide) (by decide) rfl
    (Or.inl rfl) rfl rfl (by decide)

/-- Claim C8: with `name`, `email` and `studentNumber` all present,
POST /students persists and returns the record whose `qrCode` equals its
generated id `STU<now>` and whose `createdAt` is `now`; with any of the
three missing it fails with ValidationError and persists nothing. -/
theorem createStudent_contract (st : Store)
    (name email studentNumber country : Option String) (now : Nat) :
    (name.isSome = true → email.isSome = true → studentNumber.isSome = true →
      createStudent st name email studentNumber country now =
        (.created (newStudent name email studentNumber country now),
         { st with students :=
             (kvSet st.students ("student:" ++ ("STU" ++ toString now))
               (newStudent name email studentNumber country now)) }) ∧
      (newStudent name email studentNumber country now).qrCode =
        (newStudent name email studentNumber country now).id ∧
      (newStudent name email studentNumber country now).id =
        some ("STU" ++ toString now) ∧
      (newStudent name email studentNumber country now).createdAt = some now) ∧
    ((name = none ∨ email = none ∨ studentNumber = none) →
      createStudent st name email studentNumber country now =
        (.validationError, st)) := by
  constructor
  · intro h1 h2 h3
    refine ⟨?_, rfl, rfl, rfl⟩
    simp [createStudent, h1, h2, h3]
  · intro h
    have hc : (name.isSome && email.isSome && studentNumber.isSome) = false := by
      rcases h with h | h | h <;> simp [h]
    simp [createStudent, hc]

/-- Witness for C8: one successful create and one rejected create. -/
theorem createStudent_contract_witness :
    createStudent stW (some "X") (some "x@y.com") (some "1") none 7 =
      (.created (newStudent (some "X") (some "x@y.com") (some "1") none 7),
       { stW with students :=
           (kvSet stW.students ("student:" ++ ("STU" ++ toString 7))
             (newStudent (some "X") (some "x@y.com") (some "1") none 7)) }) ∧
    createStudent stW none (some "x@y.com") (some "1") none 7 =
      (.validationError, stW) :=
  ⟨((createStudent_contract stW (some "X") (some "x@y.com") (some "1") none
      7).1 rfl rfl rfl).1,
   (createStudent_contract stW none (some "x@y.com") (some "1") none 7).2
     (Or.inl rfl)⟩

/-! ### Sorting lemmas: a stable sort commutes with filtering -/

theorem orderedInsert_eq_cons (r : α → α → Prop) [DecidableRel r] (a : α) :
    ∀ l : List α, (∀ b ∈ l, r a b) → l.orderedInsert r a = a :: l
  | [], _ => rfl
  | b :: l, h => List.orderedInsert_of_le r l (h b (List.mem_cons_self b l))

theorem orderedInsert_cons_of_not_le (r : α → α → Prop) [DecidableRel r]
    {a b : α} (l : List α) (h : ¬r a b) :
    (b :: l).orderedInsert r a = b :: l.orderedInsert r a := by
  simp only [List.orderedInsert, if_neg h]

theorem filter_orderedInsert (r : α → α → Prop) [DecidableRel r] [IsTotal α r]
    [IsTrans α r] (p : α → Bool) (a : α) (l : List α) :
    l.Sorted r →
      (l.orderedInsert r a).filter p =
        if p a then (l.filter p).orderedInsert r a else l.filter p := by
  induction l with
  | nil =>
    intro _
    by_cases hpa : p a <;> simp [hpa]
  | cons b l IH =>
    intro hs
    have hbl : ∀ c ∈ l, r b c := List.rel_of_sorted_cons hs
    have hsl : l.Sorted r := hs.of_cons
    by_cases hab : r a b
    · have hacons : ∀ c ∈ b :: l, r a c := by
        intro c hc
        rcases List.mem_cons.mp hc with rfl | hc
        · exact hab
        · exact IsTrans.trans a b c hab (hbl c hc)
      rw [List.orderedInsert_of_le r l hab]
      by_cases hpa : p a
      · have hcons : ((b :: l).filter p).orderedInsert r a =
            a :: (b :: l).filter p :=
          orderedInsert_eq_cons r a _
            (fun c hc => hacons c (List.mem_of_mem_filter hc))
        rw [if_pos hpa, List.filter_cons_of_pos hpa, hcons]
      · rw [if_neg hpa, List.filter_cons_of_neg hpa]
    · rw [orderedInsert_cons_of_not_le r l hab]
      by_cases hpb : p b
      · rw [List.filter_cons_of_pos hpb, IH hsl]
        by_cases hpa : p a
        · rw [if_pos hpa, if_pos hpa, List.filter_cons_of_pos hpb,
            orderedInsert_cons_of_not_le r _ hab]
        · rw [if_neg hpa, if_neg hpa, List.filter_cons_of_pos hpb]
      · rw [List.filter_cons_of_neg hpb, IH hsl]
        by_cases hpa : p a
        · rw [if_pos hpa, if_pos hpa, List.filter_cons_of_neg hpb]
        · rw [if_neg hpa, if_neg hpa, List.filter_cons_of_neg hpb]

theorem filter_insertionSort (r : α → α → Prop) [DecidableRel r] [IsTotal α r]
    [IsTrans α r] (p : α → Bool) :
    ∀ l : List α, (l.insertionSort r).filter p = (l.filter p).insertionSort r
  | [] => rfl
  | a :: l => by
    simp only [List.insertionSort]
    rw [filter_orderedInsert r p a _ (List.sorted_insertionSort r l)]
    by_cases hpa : p a
    · rw [if_pos hpa, filter_insertionSort r p l, List.filter_cons_of_pos hpa]
      simp only [List.insertionSort]
    · rw [if_neg hpa, filter_insertionSort r p l, List.filter_cons_of_neg hpa]

/-! ### Cascade-delete lemmas -/

theorem mem_foldl_kvDel :
    ∀ (ms l : List (String × Option AttV)) (e : String × Option AttV),
      e ∈ ms.foldl (fun acc m => kvDel acc (attKey m)) l →
        e ∈ l ∧ ∀ m ∈ ms, e.1 ≠ attKey m
  | [], _, _, h => ⟨h, by simp⟩
  | m :: ms, l, e, h => by
    have ih := mem_foldl_kvDel ms (kvDel l (attKey m)) e h
    have hmem := List.mem_filter.mp ih.1
    refine ⟨hmem.1, ?_⟩
    intro m2 hm2
    rcases List.mem_cons.mp hm2 with rfl | hm2
    · simpa using hmem.2
    · exact ih.2 m2 hm2

/-- Claim C7: at a fixed `now`, GET /attendance/today returns exactly the
same-calendar-day subset of GET /attendance, in the same
timestamp-descending relative order. -/
theorem listAttendanceToday_eq_filter (st : Store) (now : Nat) :
    listAttendanceToday st now =
      (listAttendance st).filter
        (fun r => decide (dayOf (tsKey r) = dayOf now)) := by
  unfold listAttendanceToday listAttendance sortByTimestampDesc
    validAttendanceList
  rw [filter_insertionSort attLe]
  congr 1
  rw [List.filter_filter]
  apply List.filter_congr
  intro r hr
  cases h1 : r.id.isSome <;> cases h2 : r.studentId.isSome <;>
    cases h3 : r.timestamp.isSome <;>
      cases h4 : decide (dayOf (tsKey r) = dayOf now) <;>
        simp [h1, h2, h3, h4]

/-- Claim C6, counterexample: the cascade delete keys its deletions on the
record's `id`, not on the entry's stored key, so an attendance record
stored under a key that differs from `attendance:<id>` survives the
cascade and still shows up in GET /attendance with the deleted
student's id. -/
theorem deleteStudent_cascade_counterexample :
    (deleteStudent stC6 "STU1").1 = .deleted ∧
    (deleteStudent stC6 "STU1").2.attendance =
      [("attendance:K", some recMiskeyed)] ∧
    recMiskeyed ∈ listAttendance (deleteStudent stC6 "STU1").2 ∧
    recMiskeyed.studentId = some "STU1" := by decide

/-- Claim C6 as amended: on a store whose attendance entries follow the
persisted `attendance:<id>` key layout, deleting a present student removes
its record and every attendance record with its `studentId`, so
GET /attendance shows none afterwards; deleting an absent id is a
NotFound no-op. -/
theorem deleteStudent_cascade (st : Store) (sid : String)
    (hc : keyConsistent st) :
    (kvGet st.students ("student:" ++ sid) = none →
      deleteStudent st sid = (.notFound, st)) ∧
    ((kvGet st.students ("student:" ++ sid)).isSome →
      (deleteStudent st sid).1 = .deleted ∧
      kvGet (deleteStudent st sid).2.students ("student:" ++ sid) = none ∧
      ∀ r ∈ listAttendance (deleteStudent st sid).2,
        r.studentId ≠ some sid) := by
  constructor
  · intro h
    simp [deleteStudent, h]
  · intro h
    obtain ⟨v, hv⟩ := Option.isSome_iff_exists.mp h
    refine ⟨by simp [deleteStudent, hv], ?_, ?_⟩
    · simp [deleteStudent, hv, kvGet_kvDel_self]
    · intro r hr hsid
      simp only [listAttendance, sortByTimestampDesc] at hr
      have hr2 : r ∈ validAttendanceList (deleteStudent st sid).2 :=
        (List.perm_insertionSort attLe
          (validAttendanceList (deleteStudent st sid).2)).subset hr
      obtain ⟨hrm, hrv⟩ := List.mem_filter.mp hr2
      obtain ⟨e, he, hev⟩ := List.mem_filterMap.mp hrm
      have hatt : (deleteStudent st sid).2.attendance =
          (st.attendance.filter (fun e =>
            match e.2 with
            | some v => decide (v.studentId = some sid)
            | none => false)).foldl
            (fun acc e => kvDel acc (attKey e)) st.attendance := by
        simp [deleteStudent, hv]
      rw [hatt] at he
      have hf := mem_foldl_kvDel _ _ _ he
      have hematch : e ∈ st.attendance.filter (fun e =>
          match e.2 with
          | some v => decide (v.studentId = some sid)
          | none => false) :=
        List.mem_filter.mpr ⟨hf.1, by simp [hev, hsid]⟩
      have hne := hf.2 e hematch
      have hk := hc e hf.1
      cases hid : r.id with
      | none => simp [entryKeyOk, hev, hid] at hk
      | some i =>
        simp [entryKeyOk, hev, hid] at hk
        exact hne (by rw [hk]; simp [attKey, hev, hid])

/-- Witness for the amended C6 at a concrete layout-respecting store. -/
theorem deleteStudent_cascade_witness :
    (deleteStudent stC10 "STU1").1 = .deleted ∧
    kvGet (deleteStudent stC10 "STU1").2.students ("student:" ++ "STU1") =
      none ∧
    ∀ r ∈ listAttendance (deleteStudent stC10 "STU1").2,
      r.studentId ≠ some "STU1" :=
  (deleteStudent_cascade stC10 "STU1" (by decide)).2 (by decide)

/-- Claim C1: when the code resolves to student `s` and `s` has no
attendance record on the calendar day of `now` (and the generated key is
fresh), check-in succeeds and appends exactly one new record; a second
check-in with the same code later the same calendar day fails with
AlreadyCheckedIn and leaves the attendance store unchanged. -/
theorem checkIn_twice_same_day (st : Store) (code : String) (s : StudentV)
    (now now2 : Nat)
    (hres : resolveStudent st code = some s)
    (hdup : dupFind st s.id now = none)
    (hfresh : ∀ e ∈ st.attendance,
      e.1 ≠ "attendance:" ++ ("ATT" ++ toString now))
    (hday : dayOf now2 = dayOf now) :
    checkIn st (some code) now =
      (.success s (newAttRecord s now),
       { st with attendance :=
           (st.attendance ++
             [("attendance:" ++ ("ATT" ++ toString now),
               some (newAttRecord s now))]) }) ∧
    checkIn
        { st with attendance :=
            (st.attendance ++
              [("attendance:" ++ ("ATT" ++ toString now),
                some (newAttRecord s now))]) } (some code) now2 =
      (.alreadyCheckedIn s,
       { st with attendance :=
           (st.attendance ++
             [("attendance:" ++ ("ATT" ++ toString now),
               some (newAttRecord s now))]) }) := by
  constructor
  · have hset := kvSet_fresh st.attendance
      ("attendance:" ++ ("ATT" ++ toString now)) (newAttRecord s now) hfresh
    simp [checkIn, hres, hdup, hset]
  · refine checkIn_conflict ?_ ?_
    · exact hres
    · exact dupFind_isSome_of_mem
        (e := ("attendance:" ++ ("ATT" ++ toString now),
          some (newAttRecord s now)))
        (by simp) rfl rfl (resolveStudent_wf hres).2.1 rfl hday.symm

/-- Witness for C1: two same-day check-ins against a concrete store. -/
theorem checkIn_twice_same_day_witness :
    checkIn stW (some "STU1") 5 =
      (.success sW (newAttRecord sW 5),
       { stW with attendance :=
           (stW.attendance ++
             [("attendance:" ++ ("ATT" ++ toString 5),
               some (newAttRecord sW 5))]) }) ∧
    checkIn
        { stW with attendance :=
            (stW.attendance ++
              [("attendance:" ++ ("ATT" ++ toString 5),
                some (newAttRecord sW 5))]) } (some "STU1") 9 =
      (.alreadyCheckedIn sW,
       { stW with attendance :=
           (stW.attendance ++
             [("attendance:" ++ ("ATT" ++ toString 5),
               some (newAttRecord sW 5))]) }) :=
  checkIn_twice_same_day stW "STU1" sW 5 9 (by decide) (by decide)
    (by decide) (by decide)
